import Mathlib

/-!
Shallow embedding of `grimoire_elk/enriched/utils.py`: the repository filter
builder `get_repository_filter`, the day-difference helper
`get_time_diff_days`, and the incremental watermark resolver
`get_last_enrich` with its helper `get_min_last_enrich`.

Python datetimes are modelled by their wall-clock value in microseconds since
1970-01-01T00:00:00 together with an optional utcoffset; `replace(tzinfo=None)`
keeps the wall-clock value and drops the offset, exactly as in Python.
Python floats are idealized as rationals.
-/

/-- A Python `datetime.datetime` value. `naive` is the wall-clock reading in
microseconds since 1970-01-01T00:00:00 (the value that survives
`replace(tzinfo=None)`); `tz` is the utcoffset in microseconds when the
datetime is timezone-aware, and `Option.none` for a naive datetime. -/
structure PyDatetime where
  naive : Int
  tz : Option Int
deriving DecidableEq

/-- Python `d.replace(tzinfo=None)`: drop the timezone, keep the wall-clock
value unchanged (no conversion to UTC happens). -/
def PyDatetime.stripTz (d : PyDatetime) : PyDatetime :=
  { naive := d.naive, tz := Option.none }

/-- Python `parser.parse("1970-01-01")`: the naive epoch-start sentinel that
`get_last_enrich` compares the requested `from_date` against. -/
def epochStart : PyDatetime := { naive := 0, tz := Option.none }

/-- Python `min` on two datetimes compared by wall-clock value, returning the
first argument on ties. In `get_min_last_enrich` the second operand has just
been stripped to naive, so the comparison the code performs is exactly the
wall-clock comparison of naive datetimes. -/
def pyMinDate (a b : PyDatetime) : PyDatetime :=
  if b.naive < a.naive then b else a

/-- The value built by `get_repository_filter`: the empty dict, the flat
shape with keys "name" and "value", or the term-wrapped shape
parsed from the JSON template with a "term" key over one field. -/
inductive RepoFilter where
  | empty
  | flat (name value : String)
  | term (field value : String)
deriving DecidableEq

/-- A perceval backend object as the utils functions see it: the `origin` and
`tag` attributes, and which optional parameters the `fetch` method signature
declares (the code inspects `inspect.signature(backend.fetch)`). -/
structure PercevalBackend where
  origin : String
  tag : String
  fetchHasFromDate : Bool
  fetchHasOffset : Bool
deriving DecidableEq

/-- Modelled from the spec: the `GITHUB` constant imported from the github
module, which is not among the provided sources. The spec describes
`GITHUB + "/"` as "an organization-root URL" sentinel, the GitHub site url
without org and repo. -/
def GITHUB : String := "https://github.com"

/-- The backend names for which `get_repository_filter` filters by `tag`
instead of `origin`. -/
def tagNameBackends : List String := ["meetup", "nntp", "stackexchange", "jira"]

/-- `get_repository_filter(perceval_backend, perceval_backend_name, term)`:
builds the filter used to scope enrichment store queries to one repository.
Returns the empty filter when the backend is absent or when the selected
value is one of the whole-index sentinels. -/
def get_repository_filter (perceval_backend : Option PercevalBackend)
    (perceval_backend_name : String) (term : Bool) : RepoFilter :=
  match perceval_backend with
  | Option.none => RepoFilter.empty
  | Option.some backend =>
    let fv : String × String :=
      if perceval_backend_name ∈ tagNameBackends then ("tag", backend.tag)
      else ("origin", backend.origin)
    let filter_ : RepoFilter :=
      if term then RepoFilter.term fv.1 fv.2 else RepoFilter.flat fv.1 fv.2
    if fv.2 = "" ∨ fv.2 = GITHUB ++ "/" ∨ fv.2 = "https://meetup.com/" then
      RepoFilter.empty
    else
      filter_

/-- The `parsed_args` container of a pre-refactoring perceval BackendCommand. -/
structure ParsedArgs where
  from_date : Option PyDatetime
  offset : Option Int

/-- A backend command descriptor as `get_last_enrich` sees it.
`from_date_attr` and `offset_attr` are `Option.none` when the attribute
itself is missing on the object (the `AttributeError` case that makes the
code fall back to `parsed_args`); when present, they hold the attribute
value, which may itself be Python `None`. -/
structure BackendCmd where
  backend : PercevalBackend
  from_date_attr : Option (Option PyDatetime)
  offset_attr : Option (Option Int)
  parsed_args : ParsedArgs

/-- The enrich backend as `get_last_enrich` sees it: the connector name, the
baseline `from_date` attribute (Python `None` or a datetime), and the two
enrichment store queries, each taking a list of filters and returning a
timestamp or `None`, respectively an integer offset or `None`. -/
structure EnrichBackend where
  get_connector_name : String
  from_date : Option PyDatetime
  get_last_update_from_es : List RepoFilter → Option PyDatetime
  get_last_offset_from_es : List RepoFilter → Option Int

/-- The `from_date` local variable of `get_last_enrich`: `None` unless the
backend fetch signature declares `from_date`, in which case it is
`backend_cmd.from_date`, falling back to `backend_cmd.parsed_args.from_date`
when that attribute is missing. -/
def cmdFromDate (cmd : BackendCmd) : Option PyDatetime :=
  if cmd.backend.fetchHasFromDate then
    match cmd.from_date_attr with
    | Option.some v => v
    | Option.none => cmd.parsed_args.from_date
  else
    Option.none

/-- The `offset` local variable of `get_last_enrich`: `None` unless the
backend fetch signature declares `offset`, in which case it is
`backend_cmd.offset`, falling back to `backend_cmd.parsed_args.offset` when
that attribute is missing. -/
def cmdOffset (cmd : BackendCmd) : Option Int :=
  if cmd.backend.fetchHasOffset then
    match cmd.offset_attr with
    | Option.some v => v
    | Option.none => cmd.parsed_args.offset
  else
    Option.none

/-- The value returned by `get_last_enrich`: Python `None`, a datetime, or
an integer offset. -/
inductive LastEnrich where
  | null
  | date (d : PyDatetime)
  | offset (n : Int)
deriving DecidableEq

/-- Inject the timestamp-or-None result of an enrichment store query into
the return value of `get_last_enrich`. -/
def LastEnrich.ofDate : Option PyDatetime → LastEnrich
  | Option.none => LastEnrich.null
  | Option.some d => LastEnrich.date d

/-- Inject the offset-or-None result of an enrichment store query into the
return value of `get_last_enrich`. -/
def LastEnrich.ofOffset : Option Int → LastEnrich
  | Option.none => LastEnrich.null
  | Option.some n => LastEnrich.offset n

/-- True exactly when the value is a datetime or Python `None`. -/
def LastEnrich.isDateOrNull : LastEnrich → Bool
  | LastEnrich.null => true
  | LastEnrich.date _ => true
  | LastEnrich.offset _ => false

/-- True exactly when the value is an integer offset or Python `None`. -/
def LastEnrich.isOffsetOrNull : LastEnrich → Bool
  | LastEnrich.null => true
  | LastEnrich.date _ => false
  | LastEnrich.offset _ => true

/-- `get_min_last_enrich(last_enrich, last_enrich_filtered)`: when the
filtered value is truthy, the minimum of the two after stripping the
timezone of the filtered value; otherwise the first argument unchanged. -/
def get_min_last_enrich (last_enrich : PyDatetime)
    (last_enrich_filtered : Option PyDatetime) : PyDatetime :=
  match last_enrich_filtered with
  | Option.none => last_enrich
  | Option.some f => pyMinDate last_enrich f.stripTz

/-- `get_last_enrich(backend_cmd, enrich_backend)`: the incremental
watermark resolver, translated branch by branch from the source. A present
`from_date` local is truthy because Python datetimes are always truthy; the
offset branch tests `offset is not None`. -/
def get_last_enrich (backend_cmd : Option BackendCmd)
    (enrich_backend : EnrichBackend) : LastEnrich :=
  match backend_cmd with
  | Option.none =>
    LastEnrich.ofDate (enrich_backend.get_last_update_from_es [])
  | Option.some cmd =>
    let filter_ :=
      get_repository_filter (Option.some cmd.backend)
        enrich_backend.get_connector_name false
    match cmdFromDate cmd with
    | Option.some from_date =>
      if from_date.stripTz ≠ epochStart then
        LastEnrich.date from_date
      else
        match enrich_backend.from_date with
        | Option.none => LastEnrich.null
        | Option.some baseline =>
          LastEnrich.date (get_min_last_enrich baseline
            (enrich_backend.get_last_update_from_es [filter_]))
    | Option.none =>
      match cmdOffset cmd with
      | Option.some offset =>
        if offset ≠ 0 then
          LastEnrich.offset offset
        else
          LastEnrich.ofOffset (enrich_backend.get_last_offset_from_es [filter_])
      | Option.none =>
        match enrich_backend.from_date with
        | Option.none => LastEnrich.null
        | Option.some baseline =>
          LastEnrich.date (get_min_last_enrich baseline
            (enrich_backend.get_last_update_from_es [filter_]))

/-- An argument to `get_time_diff_days`: either an already-typed
`datetime.datetime`, or a parseable string modelled by the datetime that
`dateutil.parser.parse` produces for it. -/
inductive TimeArg where
  | ofString (d : PyDatetime)
  | ofDatetime (d : PyDatetime)

/-- Python datetime subtraction, in microseconds: defined between two naive
or two aware datetimes; mixing a naive and an aware datetime raises
`TypeError`, modelled as `Option.none`. -/
def dtSubUs (e s : PyDatetime) : Option Int :=
  match e.tz, s.tz with
  | Option.none, Option.none => Option.some (e.naive - s.naive)
  | Option.some te, Option.some ts =>
    Option.some ((e.naive - te) - (s.naive - ts))
  | _, _ => Option.none

/-- Python `float(%.2f % x)`: rounding to two decimal places, idealized over
the rationals. -/
def round2 (q : ℚ) : ℚ := (round (q * 100) : ℤ) / 100

/-- `get_time_diff_days(start, end)`: `None` when either argument is absent;
otherwise a string argument is parsed and stripped of its timezone while a
typed argument is used as-is, and the elapsed days between the two are
returned rounded to two decimals. A `TypeError` from subtracting a naive
and an aware datetime is `Except.error ()`. -/
def get_time_diff_days (start_arg end_arg : Option TimeArg) :
    Except Unit (Option ℚ) :=
  match start_arg, end_arg with
  | Option.none, _ => Except.ok Option.none
  | _, Option.none => Except.ok Option.none
  | Option.some s, Option.some e =>
    let sv := match s with
      | TimeArg.ofString d => d.stripTz
      | TimeArg.ofDatetime d => d
    let ev := match e with
      | TimeArg.ofString d => d.stripTz
      | TimeArg.ofDatetime d => d
    match dtSubUs ev sv with
    | Option.none => Except.error ()
    | Option.some us =>
      Except.ok (Option.some (round2 ((us : ℚ) / 86400000000)))

/-!
Claims C1 to C10.
-/

/-- Claim C1: when the fetch signature accepts `from_date`, the resolved
descriptor `from_date` equals the 1970-01-01 sentinel, and the baseline is
present, `get_last_enrich` returns `get_min_last_enrich` of the baseline and
the last-update query filtered to this repository; `get_min_last_enrich`
computes the wall-clock minimum of the two when the filtered value is
present; and when the fetch signature accepts neither `from_date` nor
`offset`, `get_last_enrich` performs the same computation. -/
theorem C1_sentinel_from_date_min (cmd : BackendCmd) (eb : EnrichBackend)
    (b : PyDatetime) :
    (∀ fd, cmdFromDate cmd = Option.some fd → fd.stripTz = epochStart →
      eb.from_date = Option.some b →
      get_last_enrich (Option.some cmd) eb =
        LastEnrich.date (get_min_last_enrich b (eb.get_last_update_from_es
          [get_repository_filter (Option.some cmd.backend)
            eb.get_connector_name false]))) ∧
    (cmd.backend.fetchHasFromDate = false → cmd.backend.fetchHasOffset = false →
      eb.from_date = Option.some b →
      get_last_enrich (Option.some cmd) eb =
        LastEnrich.date (get_min_last_enrich b (eb.get_last_update_from_es
          [get_repository_filter (Option.some cmd.backend)
            eb.get_connector_name false]))) ∧
    (∀ a f, (get_min_last_enrich a (Option.some f)).naive = min a.naive f.naive ∧
      get_min_last_enrich a Option.none = a) := by
  refine ⟨?_, ?_, ?_⟩
  · intro fd hfd hsent hb
    simp [get_last_enrich, hfd, hsent, hb]
  · intro h1 h2 hb
    have hfd : cmdFromDate cmd = Option.none := by simp [cmdFromDate, h1]
    have hof : cmdOffset cmd = Option.none := by simp [cmdOffset, h2]
    simp [get_last_enrich, hfd, hof, hb]
  · intro a f
    refine ⟨?_, rfl⟩
    simp only [get_min_last_enrich, pyMinDate, PyDatetime.stripTz]
    split <;> simp <;> omega

/-- Witness for C1 at concrete inputs: sentinel `from_date` with baseline
100 us and filtered last update 50 us yields the minimum, and likewise when
fetch accepts neither parameter. -/
theorem C1_sentinel_from_date_min_witness :
    get_last_enrich
      (Option.some ⟨⟨"https://example.org/r", "t", true, false⟩,
        Option.some (Option.some ⟨0, Option.none⟩), Option.none,
        ⟨Option.none, Option.none⟩⟩)
      ⟨"git", Option.some ⟨100, Option.none⟩,
        fun _ => Option.some ⟨50, Option.none⟩, fun _ => Option.none⟩ =
      LastEnrich.date ⟨50, Option.none⟩ ∧
    get_last_enrich
      (Option.some ⟨⟨"https://example.org/r", "t", false, false⟩,
        Option.none, Option.none, ⟨Option.none, Option.none⟩⟩)
      ⟨"git", Option.some ⟨100, Option.none⟩,
        fun _ => Option.some ⟨50, Option.none⟩, fun _ => Option.none⟩ =
      LastEnrich.date ⟨50, Option.none⟩ ∧
    (get_min_last_enrich ⟨100, Option.none⟩
      (Option.some ⟨50, Option.none⟩)).naive = min 100 50 := by
  refine ⟨?_, ?_, ?_⟩
  · have h := (C1_sentinel_from_date_min
      ⟨⟨"https://example.org/r", "t", true, false⟩,
        Option.some (Option.some ⟨0, Option.none⟩), Option.none,
        ⟨Option.none, Option.none⟩⟩
      ⟨"git", Option.some ⟨100, Option.none⟩,
        fun _ => Option.some ⟨50, Option.none⟩, fun _ => Option.none⟩
      ⟨100, Option.none⟩).1 ⟨0, Option.none⟩ rfl rfl rfl
    exact h.trans (by decide)
  · have h := (C1_sentinel_from_date_min
      ⟨⟨"https://example.org/r", "t", false, false⟩,
        Option.none, Option.none, ⟨Option.none, Option.none⟩⟩
      ⟨"git", Option.some ⟨100, Option.none⟩,
        fun _ => Option.some ⟨50, Option.none⟩, fun _ => Option.none⟩
      ⟨100, Option.none⟩).2.1 rfl rfl rfl
    exact h.trans (by decide)
  · exact ((C1_sentinel_from_date_min
      ⟨⟨"https://example.org/r", "t", true, false⟩,
        Option.none, Option.none, ⟨Option.none, Option.none⟩⟩
      ⟨"git", Option.none, fun _ => Option.none, fun _ => Option.none⟩
      ⟨100, Option.none⟩).2.2 ⟨100, Option.none⟩ ⟨50, Option.none⟩).1

/-- Claim C2: a resolved descriptor `from_date` that differs from the
1970-01-01 sentinel after stripping its timezone is returned unchanged,
whatever the baseline and the enrichment store hold. -/
theorem C2_explicit_from_date_returned (cmd : BackendCmd) (eb : EnrichBackend)
    (fd : PyDatetime) :
    cmdFromDate cmd = Option.some fd → fd.stripTz ≠ epochStart →
    get_last_enrich (Option.some cmd) eb = LastEnrich.date fd := by
  intro hfd hne
  simp [get_last_enrich, hfd, hne]

/-- Witness for C2: an explicit `from_date` of one day after the epoch is
returned unchanged. -/
theorem C2_explicit_from_date_returned_witness :
    get_last_enrich
      (Option.some ⟨⟨"https://example.org/r", "t", true, false⟩,
        Option.some (Option.some ⟨86400000000, Option.none⟩), Option.none,
        ⟨Option.none, Option.none⟩⟩)
      ⟨"git", Option.some ⟨100, Option.none⟩,
        fun _ => Option.some ⟨50, Option.none⟩, fun _ => Option.none⟩ =
      LastEnrich.date ⟨86400000000, Option.none⟩ :=
  C2_explicit_from_date_returned _ _ _ rfl (by decide)

/-- Claim C3: with no resolved `from_date` and a resolved `offset`, a
nonzero offset is returned unchanged, and a zero offset is replaced by the
last-offset query filtered to this repository. -/
theorem C3_offset_branch (cmd : BackendCmd) (eb : EnrichBackend) (o : Int) :
    cmdFromDate cmd = Option.none → cmdOffset cmd = Option.some o →
    ((o ≠ 0 → get_last_enrich (Option.some cmd) eb = LastEnrich.offset o) ∧
     (o = 0 → get_last_enrich (Option.some cmd) eb =
       LastEnrich.ofOffset (eb.get_last_offset_from_es
         [get_repository_filter (Option.some cmd.backend)
           eb.get_connector_name false]))) := by
  intro hfd hof
  constructor
  · intro hnz
    simp [get_last_enrich, hfd, hof, hnz]
  · intro hz
    subst hz
    simp [get_last_enrich, hfd, hof]

/-- Witness for C3: offset 5 is returned unchanged; offset 0 yields the
filtered last-offset query result. -/
theorem C3_offset_branch_witness :
    get_last_enrich
      (Option.some ⟨⟨"https://example.org/r", "t", false, true⟩,
        Option.none, Option.some (Option.some 5),
        ⟨Option.none, Option.none⟩⟩)
      ⟨"git", Option.none, fun _ => Option.none, fun _ => Option.some 7⟩ =
      LastEnrich.offset 5 ∧
    get_last_enrich
      (Option.some ⟨⟨"https://example.org/r", "t", false, true⟩,
        Option.none, Option.some (Option.some 0),
        ⟨Option.none, Option.none⟩⟩)
      ⟨"git", Option.none, fun _ => Option.none, fun _ => Option.some 7⟩ =
      LastEnrich.offset 7 := by
  constructor
  · exact (C3_offset_branch
      ⟨⟨"https://example.org/r", "t", false, true⟩,
        Option.none, Option.some (Option.some 5),
        ⟨Option.none, Option.none⟩⟩
      ⟨"git", Option.none, fun _ => Option.none, fun _ => Option.some 7⟩
      5 rfl rfl).1 (by decide)
  · have h := (C3_offset_branch
      ⟨⟨"https://example.org/r", "t", false, true⟩,
        Option.none, Option.some (Option.some 0),
        ⟨Option.none, Option.none⟩⟩
      ⟨"git", Option.none, fun _ => Option.none, fun _ => Option.some 7⟩
      0 rfl rfl).2 rfl
    exact h.trans (by decide)

/-- Claim C4: with no command descriptor, `get_last_enrich` returns exactly
the unfiltered last-update query result of the enrichment store. -/
theorem C4_no_descriptor_unfiltered (eb : EnrichBackend) :
    get_last_enrich Option.none eb =
      LastEnrich.ofDate (eb.get_last_update_from_es []) := rfl

/-- Claim C5: the resolver is total and yields Python `None` for absent
data: with an absent baseline, a sentinel `from_date` returns `None`, and
so does the branch where neither parameter resolves; no exception path
exists in the model, which is a total function. -/
theorem C5_absent_data_null (cmd : BackendCmd) (eb : EnrichBackend) :
    eb.from_date = Option.none →
    ((∀ fd, cmdFromDate cmd = Option.some fd → fd.stripTz = epochStart →
       get_last_enrich (Option.some cmd) eb = LastEnrich.null) ∧
     (cmdFromDate cmd = Option.none → cmdOffset cmd = Option.none →
       get_last_enrich (Option.some cmd) eb = LastEnrich.null)) := by
  intro hb
  constructor
  · intro fd hfd hsent
    simp [get_last_enrich, hfd, hsent, hb]
  · intro hfd hof
    simp [get_last_enrich, hfd, hof, hb]

/-- Witness for C5: sentinel `from_date` with an absent baseline yields
`None`, and so does a descriptor resolving neither parameter. -/
theorem C5_absent_data_null_witness :
    get_last_enrich
      (Option.some ⟨⟨"https://example.org/r", "t", true, false⟩,
        Option.some (Option.some ⟨0, Option.none⟩), Option.none,
        ⟨Option.none, Option.none⟩⟩)
      ⟨"git", Option.none, fun _ => Option.none, fun _ => Option.none⟩ =
      LastEnrich.null ∧
    get_last_enrich
      (Option.some ⟨⟨"https://example.org/r", "t", false, false⟩,
        Option.none, Option.none, ⟨Option.none, Option.none⟩⟩)
      ⟨"git", Option.none, fun _ => Option.none, fun _ => Option.none⟩ =
      LastEnrich.null := by
  constructor
  · exact (C5_absent_data_null _ _ rfl).1 ⟨0, Option.none⟩ rfl rfl
  · exact (C5_absent_data_null _ _ rfl).2 rfl rfl

/-- Counterexample to claim C6 as stated: a descriptor whose backend fetch
signature declares `offset` (and not `from_date`) but whose `offset`
attribute holds Python `None` makes `get_last_enrich` fall through to the
timestamp branch and return a datetime, so the returned watermark is not an
integer offset or null for this offset-declaring connector. -/
theorem C6_watermark_type_counterexample :
    (⟨⟨"https://example.org/r", "t", false, true⟩, Option.none,
      Option.some Option.none, ⟨Option.none, Option.none⟩⟩ :
      BackendCmd).backend.fetchHasOffset = true ∧
    (get_last_enrich
      (Option.some ⟨⟨"https://example.org/r", "t", false, true⟩, Option.none,
        Option.some Option.none, ⟨Option.none, Option.none⟩⟩)
      ⟨"git", Option.some ⟨100, Option.none⟩,
        fun _ => Option.some ⟨50, Option.none⟩, fun _ => Option.none⟩) =
      LastEnrich.date ⟨50, Option.none⟩ ∧
    (LastEnrich.date ⟨50, Option.none⟩).isOffsetOrNull = false := by
  exact ⟨rfl, by decide, rfl⟩

/-- Claim C6 amended: for a connector whose fetch declares `from_date` and
not `offset`, the resolver returns a datetime or null; for a connector
whose fetch declares `offset` and not `from_date`, and whose descriptor
resolves the offset to a value other than Python `None`, the resolver
returns an integer offset or null. (When the resolved offset is `None`,
the code falls through to the timestamp computation.) -/
theorem C6_watermark_type_amended (cmd : BackendCmd) (eb : EnrichBackend) :
    (cmd.backend.fetchHasFromDate = true → cmd.backend.fetchHasOffset = false →
      (get_last_enrich (Option.some cmd) eb).isDateOrNull = true) ∧
    (cmd.backend.fetchHasFromDate = false → cmd.backend.fetchHasOffset = true →
      cmdOffset cmd ≠ Option.none →
      (get_last_enrich (Option.some cmd) eb).isOffsetOrNull = true) := by
  constructor
  · intro hfd hof
    have hco : cmdOffset cmd = Option.none := by simp [cmdOffset, hof]
    cases hc : cmdFromDate cmd with
    | none =>
      cases hb : eb.from_date with
      | none => simp [get_last_enrich, hc, hco, hb, LastEnrich.isDateOrNull]
      | some b => simp [get_last_enrich, hc, hco, hb, LastEnrich.isDateOrNull]
    | some fd =>
      by_cases hs : fd.stripTz = epochStart
      · cases hb : eb.from_date with
        | none => simp [get_last_enrich, hc, hs, hb, LastEnrich.isDateOrNull]
        | some b => simp [get_last_enrich, hc, hs, hb, LastEnrich.isDateOrNull]
      · simp [get_last_enrich, hc, hs, LastEnrich.isDateOrNull]
  · intro hfd hof hne
    have hcf : cmdFromDate cmd = Option.none := by simp [cmdFromDate, hfd]
    cases hc : cmdOffset cmd with
    | none => exact absurd hc hne
    | some o =>
      by_cases ho : o = 0
      · subst ho
        have : get_last_enrich (Option.some cmd) eb =
            LastEnrich.ofOffset (eb.get_last_offset_from_es
              [get_repository_filter (Option.some cmd.backend)
                eb.get_connector_name false]) := by
          simp [get_last_enrich, hcf, hc]
        rw [this]
        cases eb.get_last_offset_from_es
            [get_repository_filter (Option.some cmd.backend)
              eb.get_connector_name false] with
        | none => rfl
        | some n => rfl
      · simp [get_last_enrich, hcf, hc, ho, LastEnrich.isOffsetOrNull]

/-- Witness for the amended C6 at concrete inputs: a from-date-only backend
yields a datetime-or-null watermark, and an offset-only backend with a
present resolved offset yields an offset-or-null watermark. -/
theorem C6_watermark_type_amended_witness :
    (get_last_enrich
      (Option.some ⟨⟨"https://example.org/r", "t", true, false⟩,
        Option.some (Option.some ⟨0, Option.none⟩), Option.none,
        ⟨Option.none, Option.none⟩⟩)
      ⟨"git", Option.some ⟨100, Option.none⟩,
        fun _ => Option.some ⟨50, Option.none⟩,
        fun _ => Option.none⟩).isDateOrNull = true ∧
    (get_last_enrich
      (Option.some ⟨⟨"https://example.org/r", "t", false, true⟩,
        Option.none, Option.some (Option.some 5),
        ⟨Option.none, Option.none⟩⟩)
      ⟨"git", Option.none, fun _ => Option.none,
        fun _ => Option.some 7⟩).isOffsetOrNull = true := by
  constructor
  · exact (C6_watermark_type_amended
      ⟨⟨"https://example.org/r", "t", true, false⟩,
        Option.some (Option.some ⟨0, Option.none⟩), Option.none,
        ⟨Option.none, Option.none⟩⟩
      ⟨"git", Option.some ⟨100, Option.none⟩,
        fun _ => Option.some ⟨50, Option.none⟩,
        fun _ => Option.none⟩).1 rfl rfl
  · exact (C6_watermark_type_amended
      ⟨⟨"https://example.org/r", "t", false, true⟩,
        Option.none, Option.some (Option.some 5),
        ⟨Option.none, Option.none⟩⟩
      ⟨"git", Option.none, fun _ => Option.none,
        fun _ => Option.some 7⟩).2 rfl rfl (by decide)

/-- Claim C7: for a present backend whose selected value is not one of the
whole-index sentinels, the filter field and value are `tag` and the backend
tag for the four exceptional backend names, and `origin` and the backend
origin otherwise, in both output shapes. -/
theorem C7_filter_field_selection (b : PercevalBackend) (nm : String) :
    (nm ∈ tagNameBackends → b.tag ≠ "" → b.tag ≠ GITHUB ++ "/" →
      b.tag ≠ "https://meetup.com/" →
      get_repository_filter (Option.some b) nm false =
        RepoFilter.flat "tag" b.tag ∧
      get_repository_filter (Option.some b) nm true =
        RepoFilter.term "tag" b.tag) ∧
    (nm ∉ tagNameBackends → b.origin ≠ "" → b.origin ≠ GITHUB ++ "/" →
      b.origin ≠ "https://meetup.com/" →
      get_repository_filter (Option.some b) nm false =
        RepoFilter.flat "origin" b.origin ∧
      get_repository_filter (Option.some b) nm true =
        RepoFilter.term "origin" b.origin) := by
  constructor
  · intro hm h1 h2 h3
    constructor <;> simp [get_repository_filter, hm, h1, h2, h3]
  · intro hm h1 h2 h3
    constructor <;> simp [get_repository_filter, hm, h1, h2, h3]

/-- Witness for C7: the jira backend filters by tag, the git backend by
origin. -/
theorem C7_filter_field_selection_witness :
    get_repository_filter
      (Option.some ⟨"https://example.org/r", "product1", true, false⟩)
      "jira" false = RepoFilter.flat "tag" "product1" ∧
    get_repository_filter
      (Option.some ⟨"https://example.org/r", "product1", true, false⟩)
      "git" true = RepoFilter.term "origin" "https://example.org/r" := by
  constructor
  · exact ((C7_filter_field_selection
      ⟨"https://example.org/r", "product1", true, false⟩ "jira").1
      (by decide) (by decide) (by decide) (by decide)).1
  · exact ((C7_filter_field_selection
      ⟨"https://example.org/r", "product1", true, false⟩ "git").2
      (by decide) (by decide) (by decide) (by decide)).2

/-- Claim C8: the filter is empty when the backend is absent, and when the
selected value (tag for the four exceptional backend names, origin
otherwise) is the empty string, the organization-root sentinel, or the
community-site sentinel, in both output shapes. -/
theorem C8_empty_filter_sentinels (b : PercevalBackend) (nm : String)
    (term : Bool) :
    (get_repository_filter Option.none nm term = RepoFilter.empty) ∧
    ((if nm ∈ tagNameBackends then b.tag else b.origin) = "" ∨
     (if nm ∈ tagNameBackends then b.tag else b.origin) = GITHUB ++ "/" ∨
     (if nm ∈ tagNameBackends then b.tag else b.origin) = "https://meetup.com/" →
      get_repository_filter (Option.some b) nm term = RepoFilter.empty) := by
  constructor
  · rfl
  · intro hv
    by_cases hm : nm ∈ tagNameBackends
    · simp only [if_pos hm] at hv
      simp [get_repository_filter, hm, hv]
    · simp only [if_neg hm] at hv
      simp [get_repository_filter, hm, hv]

/-- Witness for C8: the organization-root sentinel as origin yields the
empty filter in the term shape. -/
theorem C8_empty_filter_sentinels_witness :
    get_repository_filter
      (Option.some ⟨"https://github.com/", "t", true, false⟩) "git" true =
      RepoFilter.empty :=
  (C8_empty_filter_sentinels ⟨"https://github.com/", "t", true, false⟩
    "git" true).2 (by decide)

/-- The value produced by rounding to two decimals is an integer number of
hundredths. -/
theorem round2_mul_hundred_den (x : ℚ) : (round2 x * 100).den = 1 := by
  unfold round2
  rw [div_mul_cancel₀]
  · exact Rat.den_intCast _
  · norm_num

/-- Counterexample to claim C9 as stated: the helper strips the timezone of
string inputs but leaves typed datetimes as-is, so for a start of
1970-01-01T00:00:00+12:00 and an end of 1970-01-02T00:00:00+00:00 the
string form yields 1.0 days while the typed form yields 1.5 days; the
result is not the same under the two input types. -/
theorem C9_day_diff_counterexample :
    get_time_diff_days
      (Option.some (TimeArg.ofString ⟨0, Option.some 43200000000⟩))
      (Option.some (TimeArg.ofString ⟨86400000000, Option.some 0⟩)) ≠
    get_time_diff_days
      (Option.some (TimeArg.ofDatetime ⟨0, Option.some 43200000000⟩))
      (Option.some (TimeArg.ofDatetime ⟨86400000000, Option.some 0⟩)) := by
  have h1 : get_time_diff_days
      (Option.some (TimeArg.ofString ⟨0, Option.some 43200000000⟩))
      (Option.some (TimeArg.ofString ⟨86400000000, Option.some 0⟩)) =
      Except.ok (Option.some (1 : ℚ)) := by
    simp [get_time_diff_days, dtSubUs, round2, PyDatetime.stripTz]
  have h2 : get_time_diff_days
      (Option.some (TimeArg.ofDatetime ⟨0, Option.some 43200000000⟩))
      (Option.some (TimeArg.ofDatetime ⟨86400000000, Option.some 0⟩)) =
      Except.ok (Option.some ((3 : ℚ)/2)) := by
    simp [get_time_diff_days, dtSubUs, round2]
    norm_num [round_eq]
  rw [h1, h2]
  intro hc
  simp only [Except.ok.injEq, Option.some.injEq] at hc
  norm_num at hc

/-- Claim C9 amended: the day-difference helper returns Python `None` when
either argument is absent; string inputs are parsed and stripped of their
timezone while typed inputs are used as-is, so the result is the same for
the string and the typed form of an input when the input carries no
timezone; and every returned value is rounded to exactly two decimal
places (it is an integer number of hundredths). -/
theorem C9_day_diff_amended :
    (∀ e, get_time_diff_days Option.none e = Except.ok Option.none) ∧
    (∀ s, get_time_diff_days s Option.none = Except.ok Option.none) ∧
    (∀ d1 d2 : PyDatetime, d1.tz = Option.none → d2.tz = Option.none →
      get_time_diff_days (Option.some (TimeArg.ofString d1))
        (Option.some (TimeArg.ofString d2)) =
      get_time_diff_days (Option.some (TimeArg.ofDatetime d1))
        (Option.some (TimeArg.ofDatetime d2))) ∧
    (∀ s e q, get_time_diff_days s e = Except.ok (Option.some q) →
      (q * 100).den = 1) := by
  refine ⟨?_, ?_, ?_, ?_⟩
  · intro e
    cases e <;> rfl
  · intro s
    cases s <;> rfl
  · intro d1 d2 h1 h2
    have e1 : d1.stripTz = d1 := by
      cases d1 with
      | mk n t =>
        have ht : t = Option.none := h1
        subst ht
        rfl
    have e2 : d2.stripTz = d2 := by
      cases d2 with
      | mk n t =>
        have ht : t = Option.none := h2
        subst ht
        rfl
    simp [get_time_diff_days, e1, e2]
  · intro s e q h
    cases s with
    | none => simp [get_time_diff_days] at h
    | some sa =>
      cases e with
      | none => cases sa <;> simp [get_time_diff_days] at h
      | some ea =>
        simp only [get_time_diff_days] at h
        split at h
        · exact absurd h (by simp)
        · simp only [Except.ok.injEq, Option.some.injEq] at h
          exact h ▸ round2_mul_hundred_den _

/-- Witness for the amended C9 at concrete inputs: null on either absent
argument, string/typed agreement for timezone-free inputs, and a returned
value that is an integer number of hundredths. -/
theorem C9_day_diff_amended_witness :
    get_time_diff_days Option.none
      (Option.some (TimeArg.ofDatetime ⟨0, Option.none⟩)) =
      Except.ok Option.none ∧
    get_time_diff_days (Option.some (TimeArg.ofDatetime ⟨0, Option.none⟩))
      Option.none = Except.ok Option.none ∧
    get_time_diff_days (Option.some (TimeArg.ofString ⟨0, Option.none⟩))
      (Option.some (TimeArg.ofString ⟨86400000000, Option.none⟩)) =
    get_time_diff_days (Option.some (TimeArg.ofDatetime ⟨0, Option.none⟩))
      (Option.some (TimeArg.ofDatetime ⟨86400000000, Option.none⟩)) ∧
    ((0 : ℚ) * 100).den = 1 := by
  refine ⟨?_, ?_, ?_, ?_⟩
  · exact C9_day_diff_amended.1 _
  · exact C9_day_diff_amended.2.1 _
  · exact C9_day_diff_amended.2.2.1 ⟨0, Option.none⟩
      ⟨86400000000, Option.none⟩ rfl rfl
  · exact C9_day_diff_amended.2.2.2
      (Option.some (TimeArg.ofDatetime ⟨0, Option.none⟩))
      (Option.some (TimeArg.ofDatetime ⟨0, Option.none⟩)) 0
      (by simp [get_time_diff_days, dtSubUs, round2])

/-- Claim C10: when the filtered query result is Python `None`,
`get_min_last_enrich` returns the baseline unchanged, and consequently the
sentinel branch of the resolver with a present baseline never returns
`None`. -/
theorem C10_baseline_fallback (b : PyDatetime) (cmd : BackendCmd)
    (eb : EnrichBackend) :
    (get_min_last_enrich b Option.none = b) ∧
    (∀ fd, cmdFromDate cmd = Option.some fd → fd.stripTz = epochStart →
      eb.from_date = Option.some b →
      get_last_enrich (Option.some cmd) eb ≠ LastEnrich.null) := by
  refine ⟨rfl, ?_⟩
  intro fd hfd hs hb
  simp [get_last_enrich, hfd, hs, hb]

/-- Witness for C10 at concrete inputs: an absent filtered value leaves the
baseline, and the sentinel branch with a present baseline and an empty
filtered query does not return `None`. -/
theorem C10_baseline_fallback_witness :
    get_min_last_enrich ⟨100, Option.none⟩ Option.none =
      (⟨100, Option.none⟩ : PyDatetime) ∧
    get_last_enrich
      (Option.some ⟨⟨"https://example.org/r", "t", true, false⟩,
        Option.some (Option.some ⟨0, Option.none⟩), Option.none,
        ⟨Option.none, Option.none⟩⟩)
      ⟨"git", Option.some ⟨100, Option.none⟩, fun _ => Option.none,
        fun _ => Option.none⟩ ≠ LastEnrich.null := by
  constructor
  · exact (C10_baseline_fallback ⟨100, Option.none⟩
      ⟨⟨"https://example.org/r", "t", true, false⟩, Option.none, Option.none,
        ⟨Option.none, Option.none⟩⟩
      ⟨"git", Option.none, fun _ => Option.none, fun _ => Option.none⟩).1
  · exact (C10_baseline_fallback ⟨100, Option.none⟩
      ⟨⟨"https://example.org/r", "t", true, false⟩,
        Option.some (Option.some ⟨0, Option.none⟩), Option.none,
        ⟨Option.none, Option.none⟩⟩
      ⟨"git", Option.some ⟨100, Option.none⟩, fun _ => Option.none,
        fun _ => Option.none⟩).2 ⟨0, Option.none⟩ rfl rfl rfl
